import Mathlib

/-!
Verification development for `generate-charts.py`, a benchmark-report
generator.  The script reads JSON result files produced by a load-testing
harness, groups them by workload, and renders charts, a summary table and a
markdown comparison report.

The embedding below models the data flow of the script.  Numbers are
rationals (`ℚ`); the one place where the script manufactures an IEEE
infinity (`float('inf')` as the default for a missing `publishLatency99pct`
in the report's analysis section) is modelled with `WithTop ℚ`, whose `⊤`
behaves like `+∞` under the linear order, exactly as `inf` does under
Python's `<`.  Metric values found in the harness JSON are numbers or lists
of numbers; `driver` and `workload`, when present, are strings.  Plot
rendering (matplotlib calls, text formatting) is out of scope: a chart is
modelled by the numeric vectors the script computes and hands to the
plotting library, and a written file by its path paired with that data.
-/

/-- Python float values occurring in the script: every finite value is a
rational, and `⊤` stands for `float('inf')`.  The linear order of
`WithTop ℚ` agrees with Python's comparison of floats with `inf`. -/
abbrev PyNum := WithTop ℚ

/-- A metric value as it appears in a harness JSON result: a number or a
list of numbers. -/
inductive MVal where
  | num (q : ℚ)
  | vlist (l : List ℚ)
  deriving DecidableEq

/-- A value flowing into `get_mean`: either a scalar (possibly the
`float('inf')` default) or a list of numbers. -/
inductive PyVal where
  | num (x : PyNum)
  | vlist (l : List ℚ)
  deriving DecidableEq

/-- Arithmetic mean of a list of rationals, `np.mean`.  (The script always
guards the empty case with `len(val) > 0`, so the `0/0 = 0` convention of
`ℚ` division is never relied upon.) -/
def listMean (l : List ℚ) : ℚ := l.sum / l.length

/-- The parsed content of one harness JSON file: optional `driver` and
`workload` string fields plus the metric entries, modelled as an
association list with distinct keys (a JSON object). -/
structure RawData where
  driver : Option String
  workload : Option String
  metrics : List (String × MVal)
  deriving DecidableEq

/-- One file in the results directory: its filename stem (`json_file.stem`)
and, when opening and parsing succeed, the parsed data; `none` models the
`except` path of `load_results` (an exception while opening or parsing). -/
structure RawFile where
  stem : String
  parsed : Option RawData
  deriving DecidableEq

/-- A loaded result after `load_results` ran
`data['driver'] = data.get('driver', 'unknown')` and
`data['workload'] = data.get('workload', filename)`: both keys are
present, so `driver` and `workload` are total fields here. -/
structure Result where
  driver : String
  workload : String
  metrics : List (String × MVal)
  deriving DecidableEq

instance : Inhabited Result := ⟨⟨"unknown", "", []⟩⟩

/-- Dictionary lookup `r.get(k)` on the metric entries of a result. -/
def fetch (r : Result) (k : String) : Option MVal :=
  (r.metrics.find? (fun p => p.1 == k)).map (fun p => p.2)

/-- The dict the script appends for one successfully parsed file:
the original data with `driver` defaulted to `'unknown'` and `workload`
defaulted to the filename stem (`generate-charts.py`, lines 26-31). -/
def mkResult (f : RawFile) (d : RawData) : Result :=
  ⟨d.driver.getD "unknown", d.workload.getD f.stem, d.metrics⟩

/-- Loop body of `load_results` (lines 21-34): append the fixed-up dict on
success, leave `results` unchanged when an exception is caught. -/
def loadStep (results : List Result) (f : RawFile) : List Result :=
  match f.parsed with
  | some d => results ++ [mkResult f d]
  | none => results

/-- `load_results` (lines 16-36): iterate over the files, skip any file
whose open/parse raises, and append a result with `driver` and `workload`
filled in for each file that parses. -/
def load_results (files : List RawFile) : List Result :=
  files.foldl loadStep []

/-- Loop body of `group_by_workload` (lines 41-45): when the workload key
exists, append the result to its list (an in-place `append` on the dict
entry); otherwise add the key with a one-element list. -/
def gbwStep (grouped : List (String × List Result)) (result : Result) :
    List (String × List Result) :=
  if grouped.any (fun p => p.1 == result.workload) then
    grouped.map (fun p =>
      if p.1 == result.workload then (p.1, p.2 ++ [result]) else p)
  else
    grouped ++ [(result.workload, [result])]

/-- `group_by_workload` (lines 38-46): insertion-ordered dict from workload
name to the list of results carrying it, modelled as an association list. -/
def group_by_workload (results : List Result) : List (String × List Result) :=
  results.foldl gbwStep []

/-- Lookup of a workload's group in the grouped dict, `[]` when the key is
absent (used only to state theorems; the script never looks up a missing
key). -/
def lookupGroup (grouped : List (String × List Result)) (w : String) : List Result :=
  ((grouped.find? (fun p => p.1 == w)).map (fun p => p.2)).getD []

/-- Key-membership test `w in grouped` on the grouped dict. -/
def hasKey (grouped : List (String × List Result)) (w : String) : Bool :=
  grouped.any (fun p => p.1 == w)

/-- The aggregation pattern inlined in the three chart generators
(lines 56-65, 104-118, 157-166): `val = r.get(k, 0)`, take `np.mean` of a
nonempty list, `0` for an empty list, and `float(val)` otherwise.  The
default and all JSON metric values are finite, so the result is a `ℚ`. -/
def chartAgg : Option MVal → ℚ
  | none => 0
  | some (.num q) => q
  | some (.vlist l) => if 0 < l.length then listMean l else 0

/-- The same aggregation pattern as inlined in `create_summary_table`
(lines 213-232), kept as its own definition because claim C10 compares it
with the report's `get_mean` helper. -/
def summaryAgg : Option MVal → ℚ
  | none => 0
  | some (.num q) => q
  | some (.vlist l) => if 0 < l.length then listMean l else 0

/-- `get_mean` (lines 256-259): mean of a nonempty list, `0` for an empty
list, and for a scalar `float(val) if val else 0.0` — Python truthiness of
a float is `val != 0`, and `inf` is truthy. -/
def get_mean : PyVal → PyNum
  | .vlist l => if 0 < l.length then ((listMean l : ℚ) : PyNum) else ((0 : ℚ) : PyNum)
  | .num x => if x ≠ ((0 : ℚ) : PyNum) then x else ((0 : ℚ) : PyNum)

/-- `r.get(k, default)` as it feeds `get_mean` in the comparison report:
the stored metric value (a finite scalar or a list), or the given default
(`0` in the tables, `float('inf')` in the latency analysis). -/
def fetchD (r : Result) (k : String) (d : PyVal) : PyVal :=
  match fetch r k with
  | none => d
  | some (.num q) => .num ((q : ℚ) : PyNum)
  | some (.vlist l) => .vlist l

/-- Python's `max(range(n), key=key)`: scan left to right keeping the
current best index, replacing it only on a strictly greater key, so the
first index attaining the maximum wins.  (For `n = 0` Python raises; the
script only calls this on nonempty groups, and the fold returns `0`.) -/
def pyMaxIdx {α : Type} [LinearOrder α] (key : Nat → α) (n : Nat) : Nat :=
  (List.range n).foldl (fun best i => if key best < key i then i else best) 0

/-- Python's `min(range(n), key=key)`: scan left to right keeping the
current best index, replacing it only on a strictly smaller key, so the
first index attaining the minimum wins. -/
def pyMinIdx {α : Type} [LinearOrder α] (key : Nat → α) (n : Nat) : Nat :=
  (List.range n).foldl (fun best i => if key i < key best then i else best) 0

/-- Data handed to the plotting library by `create_throughput_chart`. -/
structure ThroughputChart where
  drivers : List String
  publishRates : List ℚ
  consumeRates : List ℚ
  deriving DecidableEq

/-- Data handed to the plotting library by `create_latency_chart`. -/
structure LatencyChart where
  drivers : List String
  p50 : List ℚ
  p95 : List ℚ
  p99 : List ℚ
  deriving DecidableEq

/-- Data handed to the plotting library by `create_end_to_end_latency_chart`. -/
structure E2EChart where
  drivers : List String
  avgLatency : List ℚ
  p99Latency : List ℚ
  deriving DecidableEq

/-- One row of the summary table (lines 210-235): the driver and the five
aggregated metric columns. -/
structure SummaryRow where
  driver : String
  pubRate : ℚ
  conRate : ℚ
  p50Lat : ℚ
  p99Lat : ℚ
  e2eAvg : ℚ
  deriving DecidableEq

/-- One workload section of `comparison_report.md` (lines 248-298): the
table rows computed through `get_mean` and the two analysis lines. -/
structure ReportSection where
  workload : String
  drivers : List String
  pubRates : List PyNum
  consRates : List PyNum
  p50s : List PyNum
  p99s : List PyNum
  e2eAvgs : List PyNum
  e2eP99s : List PyNum
  bestThroughputDriver : String
  bestThroughputValue : PyNum
  lowestP99Driver : String
  lowestP99Value : PyNum
  deriving DecidableEq

/-- A document written by the script, identified by its numeric content
(rendering to pixels or text is out of scope). -/
inductive Doc where
  | throughput (c : ThroughputChart)
  | latency (c : LatencyChart)
  | e2e (c : E2EChart)
  | summary (sections : List (String × List SummaryRow))
  | report (sections : List ReportSection)
  deriving DecidableEq

/-- `create_throughput_chart` (lines 48-93): the saved path and the driver
labels and aggregated publish/consume rates plotted as bars. -/
def create_throughput_chart (results : List Result) (output_dir : String) :
    String × ThroughputChart :=
  (output_dir ++ "/throughput_comparison.png",
   ⟨results.map (fun r => r.driver),
    results.map (fun r => chartAgg (fetch r "publishRate")),
    results.map (fun r => chartAgg (fetch r "consumeRate"))⟩)

/-- `create_latency_chart` (lines 95-147): the saved path and the driver
labels and aggregated P50/P95/P99 publish latencies plotted as bars. -/
def create_latency_chart (results : List Result) (output_dir : String) :
    String × LatencyChart :=
  (output_dir ++ "/latency_comparison.png",
   ⟨results.map (fun r => r.driver),
    results.map (fun r => chartAgg (fetch r "publishLatency50pct")),
    results.map (fun r => chartAgg (fetch r "publishLatency95pct")),
    results.map (fun r => chartAgg (fetch r "publishLatency99pct"))⟩)

/-- `create_end_to_end_latency_chart` (lines 149-194): the saved path and
the driver labels and aggregated average/P99 end-to-end latencies. -/
def create_end_to_end_latency_chart (results : List Result) (output_dir : String) :
    String × E2EChart :=
  (output_dir ++ "/end_to_end_latency_comparison.png",
   ⟨results.map (fun r => r.driver),
    results.map (fun r => chartAgg (fetch r "endToEndLatencyAvg")),
    results.map (fun r => chartAgg (fetch r "endToEndLatency99pct"))⟩)

/-- One row written by `create_summary_table` for one result
(lines 210-235). -/
def summaryRow (result : Result) : SummaryRow :=
  ⟨result.driver,
   summaryAgg (fetch result "publishRate"),
   summaryAgg (fetch result "consumeRate"),
   summaryAgg (fetch result "publishLatency50pct"),
   summaryAgg (fetch result "publishLatency99pct"),
   summaryAgg (fetch result "endToEndLatencyAvg")⟩

/-- `create_summary_table` (lines 196-239): the saved path and, per
workload in dict order, the rows for its results. -/
def create_summary_table (grouped : List (String × List Result)) (output_dir : String) :
    String × List (String × List SummaryRow) :=
  (output_dir ++ "/summary.txt",
   grouped.map (fun g => (g.1, g.2.map summaryRow)))

/-- The per-result aggregated `publishRate` list `throughputs` of the
report's analysis (line 287). -/
def reportThroughputs (results : List Result) : List PyNum :=
  results.map (fun r => get_mean (fetchD r "publishRate" (.num ((0 : ℚ) : PyNum))))

/-- The per-result aggregated `publishLatency99pct` list `latencies` of the
report's analysis (line 293); note the `float('inf')` default for a
missing key. -/
def reportLatencies (results : List Result) : List PyNum :=
  results.map (fun r => get_mean (fetchD r "publishLatency99pct" (.num ⊤)))

/-- Index chosen on line 288: `max(range(len(results)), key=lambda i:
throughputs[i])`. -/
def bestThroughputIdx (results : List Result) : Nat :=
  pyMaxIdx (fun i => (reportThroughputs results).getD i ((0 : ℚ) : PyNum)) results.length

/-- The key function of line 294's `min`: `latencies[i] if latencies[i] > 0
else float('inf')`. -/
def latencyKey (results : List Result) (i : Nat) : PyNum :=
  if ((0 : ℚ) : PyNum) < (reportLatencies results).getD i ((0 : ℚ) : PyNum) then
    (reportLatencies results).getD i ((0 : ℚ) : PyNum)
  else (⊤ : PyNum)

/-- Index chosen on line 294: `min(range(len(results)), key=lambda i:
latencies[i] if latencies[i] > 0 else float('inf'))`. -/
def bestLatencyIdx (results : List Result) : Nat :=
  pyMinIdx (latencyKey results) results.length

/-- One `## workload` section of the comparison report (lines 248-298):
the six metric rows, each through `get_mean` with default `0`, and the two
analysis lines. -/
def reportSection (workload : String) (results : List Result) : ReportSection :=
  ⟨workload,
   results.map (fun r => r.driver),
   results.map (fun r => get_mean (fetchD r "publishRate" (.num ((0 : ℚ) : PyNum)))),
   results.map (fun r => get_mean (fetchD r "consumeRate" (.num ((0 : ℚ) : PyNum)))),
   results.map (fun r => get_mean (fetchD r "publishLatency50pct" (.num ((0 : ℚ) : PyNum)))),
   results.map (fun r => get_mean (fetchD r "publishLatency99pct" (.num ((0 : ℚ) : PyNum)))),
   results.map (fun r => get_mean (fetchD r "endToEndLatencyAvg" (.num ((0 : ℚ) : PyNum)))),
   results.map (fun r => get_mean (fetchD r "endToEndLatency99pct" (.num ((0 : ℚ) : PyNum)))),
   (results.getD (bestThroughputIdx results) default).driver,
   (reportThroughputs results).getD (bestThroughputIdx results) ((0 : ℚ) : PyNum),
   (results.getD (bestLatencyIdx results) default).driver,
   (reportLatencies results).getD (bestLatencyIdx results) ((0 : ℚ) : PyNum)⟩

/-- `create_comparison_report` (lines 241-300): the saved path and, per
workload in dict order, its report section. -/
def create_comparison_report (grouped : List (String × List Result)) (output_dir : String) :
    String × List ReportSection :=
  (output_dir ++ "/comparison_report.md",
   grouped.map (fun g => reportSection g.1 g.2))

/-- Observable outcome of one run of `main`: the exit status when
`sys.exit` fires, the directories created with `os.makedirs`, and the
files written (path paired with content). -/
structure MainResult where
  exitCode : Option Nat
  dirsCreated : List String
  outputs : List (String × Doc)
  deriving DecidableEq

/-- `main` (lines 302-353), with the results directory given (the `argv`
check is outside this model), `dirExists` the outcome of
`os.path.exists(results_dir)`, and `files` the directory's `*.json`
listing with each file's parse outcome. -/
def mainRun (results_dir : String) (dirExists : Bool) (files : List RawFile) :
    MainResult :=
  if dirExists then
    let charts_dir := results_dir ++ "/charts"
    let results := load_results files
    if results.isEmpty then
      ⟨some 1, [charts_dir], []⟩
    else
      let grouped := group_by_workload results
      ⟨none,
       charts_dir :: grouped.map (fun g => charts_dir ++ "/" ++ g.1),
       grouped.flatMap
         (fun g =>
           let workload_dir := charts_dir ++ "/" ++ g.1
           [((create_throughput_chart g.2 workload_dir).1,
             Doc.throughput (create_throughput_chart g.2 workload_dir).2),
            ((create_latency_chart g.2 workload_dir).1,
             Doc.latency (create_latency_chart g.2 workload_dir).2),
            ((create_end_to_end_latency_chart g.2 workload_dir).1,
             Doc.e2e (create_end_to_end_latency_chart g.2 workload_dir).2)])
       ++ [((create_summary_table grouped charts_dir).1,
            Doc.summary (create_summary_table grouped charts_dir).2),
           ((create_comparison_report grouped charts_dir).1,
            Doc.report (create_comparison_report grouped charts_dir).2)]⟩
  else
    ⟨some 1, [], []⟩

/-- The render stage in isolation: everything the script writes, computed
from the grouped results alone (used to state claim C6's factorisation). -/
def pipelineOutputs (charts_dir : String) (grouped : List (String × List Result)) :
    List (String × Doc) :=
  grouped.flatMap
    (fun g =>
      let workload_dir := charts_dir ++ "/" ++ g.1
      [((create_throughput_chart g.2 workload_dir).1,
        Doc.throughput (create_throughput_chart g.2 workload_dir).2),
       ((create_latency_chart g.2 workload_dir).1,
        Doc.latency (create_latency_chart g.2 workload_dir).2),
       ((create_end_to_end_latency_chart g.2 workload_dir).1,
        Doc.e2e (create_end_to_end_latency_chart g.2 workload_dir).2)])
  ++ [((create_summary_table grouped charts_dir).1,
       Doc.summary (create_summary_table grouped charts_dir).2),
      ((create_comparison_report grouped charts_dir).1,
       Doc.report (create_comparison_report grouped charts_dir).2)]

/-- Injection of a JSON metric value into the domain of `get_mean`
(Python applies `get_mean` directly to the value `r.get(k, default)`
returns; this coercion only mediates between the two Lean types). -/
def toPyVal : MVal → PyVal
  | .num q => .num ((q : ℚ) : PyNum)
  | .vlist l => .vlist l

/-- Claim C7, stated in the spec's words: the percentile value plotted for
a result is the field as reported by the harness — the number itself, the
arithmetic mean when the field holds a list (`0` for an empty list, per
the spec's aggregation sentence), and `0` when the field is absent.  This
definition follows the claim's wording and is compared with the
source-derived `create_latency_chart`. -/
def specLatencyValue (r : Result) (k : String) : ℚ :=
  match fetch r k with
  | none => 0
  | some (.num q) => q
  | some (.vlist l) => if l = [] then 0 else listMean l

theorem gbwStep_upd_fst (r : Result) (p : String × List Result) :
    ((if p.1 == r.workload then (p.1, p.2 ++ [r]) else p) : String × List Result).1 = p.1 := by
  split <;> rfl

theorem gbwStep_lookup (acc : List (String × List Result)) (r : Result) (w : String) :
    lookupGroup (gbwStep acc r) w
      = lookupGroup acc w ++ (if r.workload == w then [r] else []) := by
  unfold gbwStep
  by_cases hmem : acc.any (fun p => p.1 == r.workload)
  · rw [if_pos hmem]
    unfold lookupGroup
    rw [List.find?_map]
    have hcomp :
        ((fun p : String × List Result => p.1 == w) ∘
          (fun p => if p.1 == r.workload then (p.1, p.2 ++ [r]) else p))
        = fun p : String × List Result => p.1 == w := by
      funext p
      simp only [Function.comp]
      rw [gbwStep_upd_fst]
    rw [hcomp]
    cases hf : acc.find? (fun p => p.1 == w) with
    | none =>
      have hne : (r.workload == w) = false := by
        by_contra hcon
        have hww : r.workload = w := by
          have := Bool.of_not_eq_false hcon
          exact eq_of_beq this
        rw [List.find?_eq_none] at hf
        rw [List.any_eq_true] at hmem
        obtain ⟨p, hp, hpw⟩ := hmem
        exact hf p hp (by rw [hww] at hpw; exact hpw)
      simp [hne]
    | some p =>
      have hpw : p.1 = w := by
        have h := List.find?_some hf
        simp at h
        exact h
      by_cases hww : (r.workload == w) = true
      · have : r.workload = w := eq_of_beq hww
        simp [hww, hpw, this]
      · have hne : (p.1 == r.workload) = false := by
          rw [hpw]
          cases hb : (w == r.workload)
          · rfl
          · exact absurd (by rw [eq_of_beq hb]; exact beq_self_eq_true _) hww
        have hne' : ¬ p.1 = r.workload := by simpa using hne
        simp [hww, hne, hne']
  · rw [if_neg hmem]
    unfold lookupGroup
    rw [List.find?_append]
    cases hf : acc.find? (fun p => p.1 == w) with
    | none =>
      by_cases hww : (r.workload == w) = true
      · simp [List.find?, hww]
      · have hne : (r.workload == w) = false := Bool.of_not_eq_true hww
        simp [List.find?, hne]
    | some p =>
      have hpw : p.1 = w := by
        have h := List.find?_some hf
        simp at h
        exact h
      have hne : (r.workload == w) = false := by
        by_contra hcon
        have hww : r.workload = w := eq_of_beq (Bool.of_not_eq_false hcon)
        apply hmem
        rw [List.any_eq_true]
        exact ⟨p, List.mem_of_find?_eq_some hf, by rw [hpw, hww]; exact beq_self_eq_true _⟩
      simp [hne]

theorem gbwStep_hasKey (acc : List (String × List Result)) (r : Result) (w : String) :
    hasKey (gbwStep acc r) w = (hasKey acc w || (r.workload == w)) := by
  unfold gbwStep hasKey
  by_cases hmem : acc.any (fun p => p.1 == r.workload)
  · rw [if_pos hmem]
    rw [List.any_map]
    have hcomp :
        ((fun p : String × List Result => p.1 == w) ∘
          (fun p => if p.1 == r.workload then (p.1, p.2 ++ [r]) else p))
        = fun p : String × List Result => p.1 == w := by
      funext p
      simp only [Function.comp]
      rw [gbwStep_upd_fst]
    rw [hcomp]
    by_cases hww : (r.workload == w) = true
    · have hw' : w = r.workload := (eq_of_beq hww).symm
      have : acc.any (fun p => p.1 == w) = true := by rw [hw']; exact hmem
      simp [this, hww]
    · simp [Bool.of_not_eq_true hww]
  · rw [if_neg hmem]
    rw [List.any_append]
    simp [List.any]

theorem gbw_loop (l : List Result) :
    ∀ (acc : List (String × List Result)) (w : String),
      lookupGroup (l.foldl gbwStep acc) w
          = lookupGroup acc w ++ l.filter (fun r => r.workload == w)
        ∧ hasKey (l.foldl gbwStep acc) w
          = (hasKey acc w || l.any (fun r => r.workload == w)) := by
  induction l with
  | nil => intro acc w; simp
  | cons r l ih =>
    intro acc w
    rw [List.foldl_cons]
    obtain ⟨ih1, ih2⟩ := ih (gbwStep acc r) w
    constructor
    · rw [ih1, gbwStep_lookup, List.append_assoc, List.filter_cons]
      by_cases hww : (r.workload == w) = true
      · simp [hww]
      · simp [Bool.of_not_eq_true hww]
    · rw [ih2, gbwStep_hasKey, List.any_cons, Bool.or_assoc]

theorem gbwStep_ne_nil (acc : List (String × List Result)) (r : Result) :
    gbwStep acc r ≠ [] := by
  unfold gbwStep
  by_cases hmem : acc.any (fun p => p.1 == r.workload)
  · rw [if_pos hmem]
    intro hcon
    rw [List.map_eq_nil_iff] at hcon
    rw [hcon] at hmem
    simp [List.any] at hmem
  · rw [if_neg hmem]
    simp

theorem foldl_gbwStep_ne_nil (l : List Result) :
    ∀ acc : List (String × List Result), acc ≠ [] → l.foldl gbwStep acc ≠ [] := by
  induction l with
  | nil => intro acc h; simpa using h
  | cons r l ih =>
    intro acc _
    rw [List.foldl_cons]
    exact ih (gbwStep acc r) (gbwStep_ne_nil acc r)

theorem pyMaxIdx_succ {α : Type} [LinearOrder α] (key : Nat → α) (n : Nat) :
    pyMaxIdx key (n + 1)
      = if key (pyMaxIdx key n) < key n then n else pyMaxIdx key n := by
  unfold pyMaxIdx
  rw [List.range_succ, List.foldl_append]
  rfl

theorem pyMinIdx_succ {α : Type} [LinearOrder α] (key : Nat → α) (n : Nat) :
    pyMinIdx key (n + 1)
      = if key n < key (pyMinIdx key n) then n else pyMinIdx key n := by
  unfold pyMinIdx
  rw [List.range_succ, List.foldl_append]
  rfl

theorem pyMaxIdx_spec {α : Type} [LinearOrder α] (key : Nat → α) :
    ∀ n, 0 < n →
      pyMaxIdx key n < n
        ∧ (∀ j, j < n → key j ≤ key (pyMaxIdx key n))
        ∧ ∀ j, j < pyMaxIdx key n → key j < key (pyMaxIdx key n) := by
  intro n
  induction n with
  | zero => intro h; exact absurd h (by omega)
  | succ m ih =>
    intro _
    rw [pyMaxIdx_succ]
    cases Nat.eq_zero_or_pos m with
    | inl hm =>
      subst hm
      have h0 : pyMaxIdx key 0 = 0 := rfl
      rw [h0, if_neg (lt_irrefl _)]
      refine ⟨by omega, ?_, ?_⟩
      · intro j hj
        have hj0 : j = 0 := by omega
        subst hj0
        exact le_refl _
      · intro j hj
        exact absurd hj (by omega)
    | inr hm =>
      obtain ⟨hlt, hmax, hfirst⟩ := ih hm
      by_cases hk : key (pyMaxIdx key m) < key m
      · rw [if_pos hk]
        refine ⟨by omega, ?_, ?_⟩
        · intro j hj
          rcases Nat.lt_succ_iff_lt_or_eq.mp hj with hj' | hj'
          · exact le_of_lt (lt_of_le_of_lt (hmax j hj') hk)
          · subst hj'; exact le_refl _
        · intro j hj
          exact lt_of_le_of_lt (hmax j hj) hk
      · rw [if_neg hk]
        refine ⟨by omega, ?_, hfirst⟩
        intro j hj
        rcases Nat.lt_succ_iff_lt_or_eq.mp hj with hj' | hj'
        · exact hmax j hj'
        · subst hj'; exact le_of_not_lt hk

theorem pyMinIdx_spec {α : Type} [LinearOrder α] (key : Nat → α) :
    ∀ n, 0 < n →
      pyMinIdx key n < n
        ∧ (∀ j, j < n → key (pyMinIdx key n) ≤ key j)
        ∧ ∀ j, j < pyMinIdx key n → key (pyMinIdx key n) < key j := by
  intro n
  induction n with
  | zero => intro h; exact absurd h (by omega)
  | succ m ih =>
    intro _
    rw [pyMinIdx_succ]
    cases Nat.eq_zero_or_pos m with
    | inl hm =>
      subst hm
      have h0 : pyMinIdx key 0 = 0 := rfl
      rw [h0, if_neg (lt_irrefl _)]
      refine ⟨by omega, ?_, ?_⟩
      · intro j hj
        have hj0 : j = 0 := by omega
        subst hj0
        exact le_refl _
      · intro j hj
        exact absurd hj (by omega)
    | inr hm =>
      obtain ⟨hlt, hmin, hfirst⟩ := ih hm
      by_cases hk : key m < key (pyMinIdx key m)
      · rw [if_pos hk]
        refine ⟨by omega, ?_, ?_⟩
        · intro j hj
          rcases Nat.lt_succ_iff_lt_or_eq.mp hj with hj' | hj'
          · exact le_of_lt (lt_of_lt_of_le hk (hmin j hj'))
          · subst hj'; exact le_refl _
        · intro j hj
          exact lt_of_lt_of_le hk (hmin j hj)
      · rw [if_neg hk]
        refine ⟨by omega, ?_, hfirst⟩
        intro j hj
        rcases Nat.lt_succ_iff_lt_or_eq.mp hj with hj' | hj'
        · exact hmin j hj'
        · subst hj'; exact le_of_not_lt hk

theorem load_results_loop (l : List RawFile) :
    ∀ acc : List Result,
      l.foldl loadStep acc
        = acc ++ l.filterMap (fun f => f.parsed.map (mkResult f)) := by
  induction l with
  | nil => intro acc; simp
  | cons f l ih =>
    intro acc
    rw [List.foldl_cons, ih]
    cases hp : f.parsed with
    | none => simp [loadStep, hp]
    | some d => simp [loadStep, hp]

theorem load_results_eq (files : List RawFile) :
    load_results files = files.filterMap (fun f => f.parsed.map (mkResult f)) := by
  rw [load_results, load_results_loop]
  simp

theorem group_by_workload_eq_nil_iff (results : List Result) :
    group_by_workload results = [] ↔ results = [] := by
  constructor
  · intro h
    cases results with
    | nil => rfl
    | cons r l =>
      exfalso
      apply foldl_gbwStep_ne_nil l (gbwStep [] r) (gbwStep_ne_nil [] r)
      rw [group_by_workload, List.foldl_cons] at h
      exact h
  · intro h; rw [h]; rfl

/-- C1: for every list of loaded results, `group_by_workload` returns a
mapping in which each result appears in exactly the list keyed by its
`workload` value, keeping the relative input order within each group —
the group stored under any key `w` is precisely the order-preserving
filter of the input by `workload = w`, and a key is present exactly when
some input result carries it. -/
theorem c1_group_by_workload_partition (results : List Result) (w : String) :
    lookupGroup (group_by_workload results) w
        = results.filter (fun r => r.workload == w)
      ∧ hasKey (group_by_workload results) w
        = results.any (fun r => r.workload == w) := by
  obtain ⟨h1, h2⟩ := gbw_loop results [] w
  constructor
  · rw [group_by_workload, h1]
    simp [lookupGroup]
  · rw [group_by_workload, h2]
    simp [hasKey]

/-- C10: for every metric value that is a number or a (possibly empty)
list of numbers, the aggregation inlined in `create_summary_table` and the
`get_mean` helper of `create_comparison_report` agree — both on the bare
value and on the defaulted lookup of any metric key of any result, so the
summary table and the report show the same numbers. -/
theorem c10_summary_agg_eq_get_mean (v : MVal) (r : Result) (k : String) :
    ((summaryAgg (some v) : ℚ) : PyNum) = get_mean (toPyVal v)
      ∧ ((summaryAgg (fetch r k) : ℚ) : PyNum)
        = get_mean (fetchD r k (.num ((0 : ℚ) : PyNum))) := by
  have hval : ∀ v' : MVal,
      ((summaryAgg (some v') : ℚ) : PyNum) = get_mean (toPyVal v') := by
    intro v'
    cases v' with
    | num q =>
      by_cases hq : q = 0
      · subst hq
        simp [summaryAgg, toPyVal, get_mean]
      · have hq' : ((q : ℚ) : PyNum) ≠ ((0 : ℚ) : PyNum) := by
          exact_mod_cast hq
        simp [summaryAgg, toPyVal, get_mean, hq']
        rw [if_neg hq]
    | vlist l =>
      by_cases hl : 0 < l.length
      · simp [summaryAgg, toPyVal, get_mean, hl]
      · simp [summaryAgg, toPyVal, get_mean, hl]
  refine ⟨hval v, ?_⟩
  cases hf : fetch r k with
  | none => simp [summaryAgg, fetchD, hf, get_mean]
  | some v' =>
    have := hval v'
    cases v' with
    | num q => simpa [fetchD, hf, toPyVal] using hval (.num q)
    | vlist l => simpa [fetchD, hf, toPyVal] using hval (.vlist l)

/-- C7: for every workload group, the publish-latency chart plots, per
driver, the P50, P95 and P99 values taken from `publishLatency50pct`,
`publishLatency95pct` and `publishLatency99pct` — the raw number, the
arithmetic mean for a list, `0` for an absent field — exactly the
spec-side reading `specLatencyValue`. -/
theorem c7_latency_chart_fields (results : List Result) (output_dir : String) :
    (create_latency_chart results output_dir).2
      = ⟨results.map (fun r => r.driver),
         results.map (fun r => specLatencyValue r "publishLatency50pct"),
         results.map (fun r => specLatencyValue r "publishLatency95pct"),
         results.map (fun r => specLatencyValue r "publishLatency99pct")⟩ := by
  have key : ∀ (r : Result) (k : String), chartAgg (fetch r k) = specLatencyValue r k := by
    intro r k
    cases hf : fetch r k with
    | none => simp [chartAgg, specLatencyValue, hf]
    | some v =>
      cases v with
      | num q => simp [chartAgg, specLatencyValue, hf]
      | vlist l =>
        cases l with
        | nil => simp [chartAgg, specLatencyValue, hf]
        | cons a t => simp [chartAgg, specLatencyValue, hf]
  simp [create_latency_chart, key]

/-- C8: every dict returned by `load_results` carries a `driver` key
(`'unknown'` when the JSON lacked one) and a `workload` key (the filename
stem when the JSON lacked one) — in the embedding, every loaded result's
total `driver` and `workload` fields equal exactly those defaulted lookups
of some parsed input file, so the later `result['workload']` and driver
lookups are total. -/
theorem c8_loaded_results_have_driver_and_workload
    (files : List RawFile) (r : Result) (h : r ∈ load_results files) :
    ∃ f, f ∈ files ∧ ∃ d, f.parsed = some d
      ∧ r.driver = d.driver.getD "unknown"
      ∧ r.workload = d.workload.getD f.stem
      ∧ r.metrics = d.metrics := by
  rw [load_results_eq, List.mem_filterMap] at h
  obtain ⟨f, hf, hmap⟩ := h
  cases hp : f.parsed with
  | none => rw [hp] at hmap; simp at hmap
  | some d =>
    rw [hp] at hmap
    simp at hmap
    subst hmap
    exact ⟨f, hf, d, hp, rfl, rfl, rfl⟩

/-- Witness for C8 at a concrete input: a file `nats-w1.json` whose JSON
has neither `driver` nor `workload` loads as a result with driver
`unknown` and workload `nats-w1`. -/
theorem c8_witness :
    (⟨"unknown", "nats-w1", []⟩ : Result)
        ∈ load_results [⟨"nats-w1", some ⟨none, none, []⟩⟩]
      ∧ ∃ f, f ∈ ([⟨"nats-w1", some ⟨none, none, []⟩⟩] : List RawFile)
          ∧ ∃ d, f.parsed = some d
            ∧ (⟨"unknown", "nats-w1", []⟩ : Result).driver = d.driver.getD "unknown"
            ∧ (⟨"unknown", "nats-w1", []⟩ : Result).workload = d.workload.getD f.stem
            ∧ (⟨"unknown", "nats-w1", []⟩ : Result).metrics = d.metrics := by
  refine ⟨by rw [load_results_eq]; simp [mkResult], ?_⟩
  exact c8_loaded_results_have_driver_and_workload _ _
    (by rw [load_results_eq]; simp [mkResult])

/-- C9: a file whose open or parse raises is skipped while every other
file's result is kept, and `main` exits with status 1 — writing no chart,
summary or report file — both when the results directory does not exist
and when no result could be loaded. -/
theorem c9_error_handling (pre post : List RawFile) (f : RawFile)
    (hf : f.parsed = none) (dir : String) (files gfiles : List RawFile)
    (hload : load_results gfiles = []) :
    load_results (pre ++ f :: post) = load_results (pre ++ post)
      ∧ (mainRun dir false files).exitCode = some 1
      ∧ (mainRun dir false files).outputs = []
      ∧ (mainRun dir true gfiles).exitCode = some 1
      ∧ (mainRun dir true gfiles).outputs = [] := by
  refine ⟨?_, by simp [mainRun], by simp [mainRun], ?_, ?_⟩
  · rw [load_results_eq, load_results_eq, List.filterMap_append,
      List.filterMap_append, List.filterMap_cons, hf]
    rfl
  · simp [mainRun, hload]
  · simp [mainRun, hload]

/-- Witness for C9 at a concrete input: one unparsable file between two
good ones is skipped, and `main` with a missing directory or an empty
load exits 1 with no files written. -/
theorem c9_witness :
    (⟨"bad", none⟩ : RawFile).parsed = none
      ∧ load_results [⟨"bad", none⟩] = []
      ∧ load_results ([⟨"a", some ⟨none, none, []⟩⟩] ++ (⟨"bad", none⟩ : RawFile) :: [⟨"b", some ⟨none, none, []⟩⟩])
          = load_results ([⟨"a", some ⟨none, none, []⟩⟩] ++ [⟨"b", some ⟨none, none, []⟩⟩])
      ∧ (mainRun "results" false []).exitCode = some 1
      ∧ (mainRun "results" false []).outputs = []
      ∧ (mainRun "results" true [⟨"bad", none⟩]).exitCode = some 1
      ∧ (mainRun "results" true [⟨"bad", none⟩]).outputs = [] := by
  have h := c9_error_handling [⟨"a", some ⟨none, none, []⟩⟩] [⟨"b", some ⟨none, none, []⟩⟩]
    ⟨"bad", none⟩ rfl "results" [] [⟨"bad", none⟩] (by rw [load_results_eq]; simp)
  exact ⟨rfl, by rw [load_results_eq]; simp, h.1, h.2.1, h.2.2.1, h.2.2.2.1, h.2.2.2.2⟩

/-- C4: for every non-empty workload group, the Best Throughput line names
the driver at the first index attaining the maximum of the per-result
aggregated `publishRate` values, and shows that maximum value. -/
theorem c4_best_throughput (w : String) (results : List Result)
    (h : results ≠ []) :
    bestThroughputIdx results < results.length
      ∧ (reportSection w results).bestThroughputDriver
          = (results.getD (bestThroughputIdx results) default).driver
      ∧ (reportSection w results).bestThroughputValue
          = (reportThroughputs results).getD (bestThroughputIdx results) ((0 : ℚ) : PyNum)
      ∧ (∀ j, j < results.length →
          (reportThroughputs results).getD j ((0 : ℚ) : PyNum)
            ≤ (reportThroughputs results).getD (bestThroughputIdx results) ((0 : ℚ) : PyNum))
      ∧ ∀ j, j < bestThroughputIdx results →
          (reportThroughputs results).getD j ((0 : ℚ) : PyNum)
            < (reportThroughputs results).getD (bestThroughputIdx results) ((0 : ℚ) : PyNum) := by
  have hn : 0 < results.length := List.length_pos.mpr h
  obtain ⟨h1, h2, h3⟩ := pyMaxIdx_spec
    (fun i => (reportThroughputs results).getD i ((0 : ℚ) : PyNum)) results.length hn
  exact ⟨h1, rfl, rfl, h2, h3⟩

/-- Witness for C4 at a concrete group: NATS publishes at 10, Pulsar at 7,
so the line names NATS with value 10. -/
theorem c4_witness :
    ([⟨"NATS", "w", [("publishRate", MVal.num 10)]⟩,
      ⟨"Pulsar", "w", [("publishRate", MVal.num 7)]⟩] : List Result) ≠ []
      ∧ (bestThroughputIdx
            [⟨"NATS", "w", [("publishRate", MVal.num 10)]⟩,
             ⟨"Pulsar", "w", [("publishRate", MVal.num 7)]⟩]
          < ([⟨"NATS", "w", [("publishRate", MVal.num 10)]⟩,
              ⟨"Pulsar", "w", [("publishRate", MVal.num 7)]⟩] : List Result).length
        ∧ (reportSection "w"
             [⟨"NATS", "w", [("publishRate", MVal.num 10)]⟩,
              ⟨"Pulsar", "w", [("publishRate", MVal.num 7)]⟩]).bestThroughputDriver
            = (([⟨"NATS", "w", [("publishRate", MVal.num 10)]⟩,
                 ⟨"Pulsar", "w", [("publishRate", MVal.num 7)]⟩] : List Result).getD
                (bestThroughputIdx
                  [⟨"NATS", "w", [("publishRate", MVal.num 10)]⟩,
                   ⟨"Pulsar", "w", [("publishRate", MVal.num 7)]⟩]) default).driver
        ∧ (reportSection "w"
             [⟨"NATS", "w", [("publishRate", MVal.num 10)]⟩,
              ⟨"Pulsar", "w", [("publishRate", MVal.num 7)]⟩]).bestThroughputValue
            = (reportThroughputs
                [⟨"NATS", "w", [("publishRate", MVal.num 10)]⟩,
                 ⟨"Pulsar", "w", [("publishRate", MVal.num 7)]⟩]).getD
                (bestThroughputIdx
                  [⟨"NATS", "w", [("publishRate", MVal.num 10)]⟩,
                   ⟨"Pulsar", "w", [("publishRate", MVal.num 7)]⟩]) ((0 : ℚ) : PyNum)
        ∧ (∀ j, j < ([⟨"NATS", "w", [("publishRate", MVal.num 10)]⟩,
                      ⟨"Pulsar", "w", [("publishRate", MVal.num 7)]⟩] : List Result).length →
            (reportThroughputs
              [⟨"NATS", "w", [("publishRate", MVal.num 10)]⟩,
               ⟨"Pulsar", "w", [("publishRate", MVal.num 7)]⟩]).getD j ((0 : ℚ) : PyNum)
              ≤ (reportThroughputs
                  [⟨"NATS", "w", [("publishRate", MVal.num 10)]⟩,
                   ⟨"Pulsar", "w", [("publishRate", MVal.num 7)]⟩]).getD
                  (bestThroughputIdx
                    [⟨"NATS", "w", [("publishRate", MVal.num 10)]⟩,
                     ⟨"Pulsar", "w", [("publishRate", MVal.num 7)]⟩]) ((0 : ℚ) : PyNum))
        ∧ ∀ j, j < bestThroughputIdx
              [⟨"NATS", "w", [("publishRate", MVal.num 10)]⟩,
               ⟨"Pulsar", "w", [("publishRate", MVal.num 7)]⟩] →
            (reportThroughputs
              [⟨"NATS", "w", [("publishRate", MVal.num 10)]⟩,
               ⟨"Pulsar", "w", [("publishRate", MVal.num 7)]⟩]).getD j ((0 : ℚ) : PyNum)
              < (reportThroughputs
                  [⟨"NATS", "w", [("publishRate", MVal.num 10)]⟩,
                   ⟨"Pulsar", "w", [("publishRate", MVal.num 7)]⟩]).getD
                  (bestThroughputIdx
                    [⟨"NATS", "w", [("publishRate", MVal.num 10)]⟩,
                     ⟨"Pulsar", "w", [("publishRate", MVal.num 7)]⟩]) ((0 : ℚ) : PyNum)) := by
  exact ⟨by simp,
    c4_best_throughput "w"
      [⟨"NATS", "w", [("publishRate", MVal.num 10)]⟩,
       ⟨"Pulsar", "w", [("publishRate", MVal.num 7)]⟩] (by simp)⟩

/-- Counterexample to C3 as stated: in the group with driver A whose
`publishLatency99pct` is the empty list (aggregating to 0) and driver B
whose value is 5, the aggregated values are [0, 5] with minimum 0 — yet
the Lowest P99 Latency line names B and shows 5, because line 294 remaps
nonpositive latencies to `float('inf')` before taking the minimum. -/
theorem c3_counterexample :
    (reportSection "w"
        [⟨"A", "w", [("publishLatency99pct", MVal.vlist [])]⟩,
         ⟨"B", "w", [("publishLatency99pct", MVal.num 5)]⟩]).lowestP99Driver = "B"
      ∧ (reportSection "w"
          [⟨"A", "w", [("publishLatency99pct", MVal.vlist [])]⟩,
           ⟨"B", "w", [("publishLatency99pct", MVal.num 5)]⟩]).lowestP99Value
          = ((5 : ℚ) : PyNum)
      ∧ reportLatencies
          [⟨"A", "w", [("publishLatency99pct", MVal.vlist [])]⟩,
           ⟨"B", "w", [("publishLatency99pct", MVal.num 5)]⟩]
          = [((0 : ℚ) : PyNum), ((5 : ℚ) : PyNum)]
      ∧ ¬ ((5 : ℚ) : PyNum) ≤ ((0 : ℚ) : PyNum) := by
  refine ⟨?_, ?_, ?_, by decide⟩ <;> decide

/-- C3 (amended): the Lowest P99 Latency line names the driver at the
first index minimizing `latencies[i] if latencies[i] > 0 else inf` — the
minimum is taken over the strictly positive aggregated
`publishLatency99pct` values, nonpositive ones (and absent ones, which the
`float('inf')` default already sends to +∞) being pushed to +∞ — and shows
that result's aggregated value; this is the minimum of the positive
aggregated values when one exists, but not necessarily the minimum of all
aggregated values over the group. -/
theorem c3_lowest_latency_amended (w : String) (results : List Result)
    (h : results ≠ []) :
    bestLatencyIdx results < results.length
      ∧ (reportSection w results).lowestP99Driver
          = (results.getD (bestLatencyIdx results) default).driver
      ∧ (reportSection w results).lowestP99Value
          = (reportLatencies results).getD (bestLatencyIdx results) ((0 : ℚ) : PyNum)
      ∧ (∀ j, j < results.length →
          latencyKey results (bestLatencyIdx results) ≤ latencyKey results j)
      ∧ ∀ j, j < bestLatencyIdx results →
          latencyKey results (bestLatencyIdx results) < latencyKey results j := by
  have hn : 0 < results.length := List.length_pos.mpr h
  obtain ⟨h1, h2, h3⟩ := pyMinIdx_spec (latencyKey results) results.length hn
  exact ⟨h1, rfl, rfl, h2, h3⟩

/-- Witness for the amended C3 at the counterexample group: the selection
properties hold there with index 1 (driver B). -/
theorem c3_amended_witness :
    ([⟨"A", "w", [("publishLatency99pct", MVal.vlist [])]⟩,
      ⟨"B", "w", [("publishLatency99pct", MVal.num 5)]⟩] : List Result) ≠ []
      ∧ (bestLatencyIdx
            [⟨"A", "w", [("publishLatency99pct", MVal.vlist [])]⟩,
             ⟨"B", "w", [("publishLatency99pct", MVal.num 5)]⟩]
          < ([⟨"A", "w", [("publishLatency99pct", MVal.vlist [])]⟩,
              ⟨"B", "w", [("publishLatency99pct", MVal.num 5)]⟩] : List Result).length
        ∧ (reportSection "w"
             [⟨"A", "w", [("publishLatency99pct", MVal.vlist [])]⟩,
              ⟨"B", "w", [("publishLatency99pct", MVal.num 5)]⟩]).lowestP99Driver
            = (([⟨"A", "w", [("publishLatency99pct", MVal.vlist [])]⟩,
                 ⟨"B", "w", [("publishLatency99pct", MVal.num 5)]⟩] : List Result).getD
                (bestLatencyIdx
                  [⟨"A", "w", [("publishLatency99pct", MVal.vlist [])]⟩,
                   ⟨"B", "w", [("publishLatency99pct", MVal.num 5)]⟩]) default).driver
        ∧ (reportSection "w"
             [⟨"A", "w", [("publishLatency99pct", MVal.vlist [])]⟩,
              ⟨"B", "w", [("publishLatency99pct", MVal.num 5)]⟩]).lowestP99Value
            = (reportLatencies
                [⟨"A", "w", [("publishLatency99pct", MVal.vlist [])]⟩,
                 ⟨"B", "w", [("publishLatency99pct", MVal.num 5)]⟩]).getD
                (bestLatencyIdx
                  [⟨"A", "w", [("publishLatency99pct", MVal.vlist [])]⟩,
                   ⟨"B", "w", [("publishLatency99pct", MVal.num 5)]⟩]) ((0 : ℚ) : PyNum)
        ∧ (∀ j, j < ([⟨"A", "w", [("publishLatency99pct", MVal.vlist [])]⟩,
                      ⟨"B", "w", [("publishLatency99pct", MVal.num 5)]⟩] : List Result).length →
            latencyKey
                [⟨"A", "w", [("publishLatency99pct", MVal.vlist [])]⟩,
                 ⟨"B", "w", [("publishLatency99pct", MVal.num 5)]⟩]
                (bestLatencyIdx
                  [⟨"A", "w", [("publishLatency99pct", MVal.vlist [])]⟩,
                   ⟨"B", "w", [("publishLatency99pct", MVal.num 5)]⟩])
              ≤ latencyKey
                  [⟨"A", "w", [("publishLatency99pct", MVal.vlist [])]⟩,
                   ⟨"B", "w", [("publishLatency99pct", MVal.num 5)]⟩] j)
        ∧ ∀ j, j < bestLatencyIdx
              [⟨"A", "w", [("publishLatency99pct", MVal.vlist [])]⟩,
               ⟨"B", "w", [("publishLatency99pct", MVal.num 5)]⟩] →
            latencyKey
                [⟨"A", "w", [("publishLatency99pct", MVal.vlist [])]⟩,
                 ⟨"B", "w", [("publishLatency99pct", MVal.num 5)]⟩]
                (bestLatencyIdx
                  [⟨"A", "w", [("publishLatency99pct", MVal.vlist [])]⟩,
                   ⟨"B", "w", [("publishLatency99pct", MVal.num 5)]⟩])
              < latencyKey
                  [⟨"A", "w", [("publishLatency99pct", MVal.vlist [])]⟩,
                   ⟨"B", "w", [("publishLatency99pct", MVal.num 5)]⟩] j) := by
  exact ⟨by simp,
    c3_lowest_latency_amended "w"
      [⟨"A", "w", [("publishLatency99pct", MVal.vlist [])]⟩,
       ⟨"B", "w", [("publishLatency99pct", MVal.num 5)]⟩] (by simp)⟩

/-- Counterexample to C2 as stated: for a result with no
`publishLatency99pct` key, the aggregation site of the report's latency
analysis (line 293) defaults the value to `float('inf')`, not to 0 — the
Lowest P99 Latency line for a one-result group shows +∞. -/
theorem c2_counterexample :
    fetch ⟨"NATS", "w", []⟩ "publishLatency99pct" = none
      ∧ (reportSection "w" [⟨"NATS", "w", []⟩]).lowestP99Value = (⊤ : PyNum)
      ∧ (⊤ : PyNum) ≠ ((0 : ℚ) : PyNum) := by
  refine ⟨?_, ?_, ?_⟩ <;> decide

/-- C2 (amended): at every aggregation site a list value is aggregated to
its arithmetic mean and an empty list to 0; an absent metric key defaults
to 0 at the chart sites, the summary table, and the report's metric table
— but not at the report's latency analysis (line 293), where an absent
`publishLatency99pct` defaults to `float('inf')`. -/
theorem c2_aggregation_amended (r : Result)
    (h99 : fetch r "publishLatency99pct" = none)
    (l : List ℚ) (hl : l ≠ []) (w output_dir : String) :
    chartAgg (some (.vlist l)) = listMean l
      ∧ chartAgg (some (.vlist [])) = 0
      ∧ summaryAgg (some (.vlist l)) = listMean l
      ∧ summaryAgg (some (.vlist [])) = 0
      ∧ get_mean (.vlist l) = ((listMean l : ℚ) : PyNum)
      ∧ get_mean (.vlist []) = ((0 : ℚ) : PyNum)
      ∧ (create_latency_chart [r] output_dir).2.p99 = [0]
      ∧ (summaryRow r).p99Lat = 0
      ∧ (reportSection w [r]).p99s = [((0 : ℚ) : PyNum)]
      ∧ (reportSection w [r]).lowestP99Value = (⊤ : PyNum) := by
  have hlen : 0 < l.length := List.length_pos.mpr hl
  have hidx : bestLatencyIdx [r] = 0 := by
    simp [bestLatencyIdx, pyMinIdx, List.range_succ]
  refine ⟨by simp [chartAgg, hlen], by simp [chartAgg, listMean],
    by simp [summaryAgg, hlen], by simp [summaryAgg, listMean],
    by simp [get_mean, hlen], by simp [get_mean, listMean],
    by simp [create_latency_chart, chartAgg, h99],
    by simp [summaryRow, summaryAgg, h99],
    by simp [reportSection, fetchD, h99, get_mean],
    ?_⟩
  show (reportLatencies [r]).getD (bestLatencyIdx [r]) ((0 : ℚ) : PyNum) = (⊤ : PyNum)
  rw [hidx]
  simp [reportLatencies, fetchD, h99, get_mean]

/-- Witness for the amended C2 at a concrete input: a result with no
metrics at all and the one-element list [3]. -/
theorem c2_amended_witness :
    fetch ⟨"NATS", "w", []⟩ "publishLatency99pct" = none
      ∧ ([3] : List ℚ) ≠ []
      ∧ (chartAgg (some (.vlist [3])) = listMean [3]
        ∧ chartAgg (some (.vlist [])) = 0
        ∧ summaryAgg (some (.vlist [3])) = listMean [3]
        ∧ summaryAgg (some (.vlist [])) = 0
        ∧ get_mean (.vlist [3]) = ((listMean [3] : ℚ) : PyNum)
        ∧ get_mean (.vlist []) = ((0 : ℚ) : PyNum)
        ∧ (create_latency_chart [⟨"NATS", "w", []⟩] "out").2.p99 = [0]
        ∧ (summaryRow ⟨"NATS", "w", []⟩).p99Lat = 0
        ∧ (reportSection "w" [⟨"NATS", "w", []⟩]).p99s = [((0 : ℚ) : PyNum)]
        ∧ (reportSection "w" [⟨"NATS", "w", []⟩]).lowestP99Value = (⊤ : PyNum)) := by
  exact ⟨by decide, by decide,
    c2_aggregation_amended ⟨"NATS", "w", []⟩ (by decide) [3] (by decide) "w" "out"⟩

/-- C5: whenever at least one result loads, `main` exits normally and the
files it writes are exactly, per workload group, the three chart images
under `charts/<workload>/`, followed by `summary.txt` and
`comparison_report.md` under `charts/`. -/
theorem c5_emitted_artifacts (results_dir : String) (files : List RawFile)
    (h : load_results files ≠ []) :
    (mainRun results_dir true files).exitCode = none
      ∧ (mainRun results_dir true files).outputs.map (fun o => o.1)
        = (group_by_workload (load_results files)).flatMap
            (fun g =>
              [results_dir ++ "/charts" ++ "/" ++ g.1 ++ "/throughput_comparison.png",
               results_dir ++ "/charts" ++ "/" ++ g.1 ++ "/latency_comparison.png",
               results_dir ++ "/charts" ++ "/" ++ g.1 ++ "/end_to_end_latency_comparison.png"])
          ++ [results_dir ++ "/charts" ++ "/summary.txt",
              results_dir ++ "/charts" ++ "/comparison_report.md"] := by
  have hne : (load_results files).isEmpty = false := by
    cases hres : load_results files with
    | nil => exact absurd hres h
    | cons a t => rfl
  constructor
  · simp [mainRun, hne]
  · simp [mainRun, hne, List.map_append, List.map_flatMap,
      create_throughput_chart, create_latency_chart,
      create_end_to_end_latency_chart, create_summary_table,
      create_comparison_report]

/-- Witness for C5 at a concrete run: one file, one workload group. -/
theorem c5_witness :
    load_results [⟨"w1", some ⟨some "NATS", some "w1", []⟩⟩] ≠ []
      ∧ ((mainRun "r" true [⟨"w1", some ⟨some "NATS", some "w1", []⟩⟩]).exitCode = none
        ∧ (mainRun "r" true [⟨"w1", some ⟨some "NATS", some "w1", []⟩⟩]).outputs.map (fun o => o.1)
          = (group_by_workload (load_results [⟨"w1", some ⟨some "NATS", some "w1", []⟩⟩])).flatMap
              (fun g =>
                ["r" ++ "/charts" ++ "/" ++ g.1 ++ "/throughput_comparison.png",
                 "r" ++ "/charts" ++ "/" ++ g.1 ++ "/latency_comparison.png",
                 "r" ++ "/charts" ++ "/" ++ g.1 ++ "/end_to_end_latency_comparison.png"])
            ++ ["r" ++ "/charts" ++ "/summary.txt",
                "r" ++ "/charts" ++ "/comparison_report.md"]) := by
  exact ⟨by decide,
    c5_emitted_artifacts "r" [⟨"w1", some ⟨some "NATS", some "w1", []⟩⟩] (by decide)⟩

/-- C6: the program is a single-pass pipeline — the outputs of `main` are
exactly the render stage applied to `group_by_workload` of
`load_results`, `main`'s behaviour depends on the input files only through
the one `load_results` call, and its outputs depend on the loaded results
only through the one `group_by_workload` call; no stage feeds back into an
earlier one. -/
theorem c6_single_pass_pipeline (results_dir : String) (files : List RawFile) :
    (mainRun results_dir true files).outputs
        = (if load_results files = [] then []
           else pipelineOutputs (results_dir ++ "/charts")
                  (group_by_workload (load_results files)))
      ∧ (∀ files2, load_results files = load_results files2 →
          mainRun results_dir true files = mainRun results_dir true files2)
      ∧ ∀ files2,
          group_by_workload (load_results files)
              = group_by_workload (load_results files2) →
          (mainRun results_dir true files).outputs
            = (mainRun results_dir true files2).outputs := by
  have key : ∀ fl : List RawFile,
      (mainRun results_dir true fl).outputs
        = if load_results fl = [] then []
          else pipelineOutputs (results_dir ++ "/charts")
                 (group_by_workload (load_results fl)) := by
    intro fl
    by_cases hfl : load_results fl = []
    · simp [mainRun, hfl]
    · have hne : (load_results fl).isEmpty = false := by
        cases hres : load_results fl with
        | nil => exact absurd hres hfl
        | cons a t => rfl
      simp [mainRun, hne, hfl, pipelineOutputs]
  refine ⟨key files, ?_, ?_⟩
  · intro files2 heq
    simp only [mainRun, heq]
  · intro files2 heq
    rw [key files, key files2, heq]
    have hiff : load_results files = [] ↔ load_results files2 = [] := by
      rw [← group_by_workload_eq_nil_iff, ← group_by_workload_eq_nil_iff, heq]
    by_cases hc : load_results files = []
    · rw [if_pos hc, if_pos (hiff.mp hc)]
    · rw [if_neg hc, if_neg (fun hc2 => hc (hiff.mpr hc2))]

/-- Witness for C6 at concrete inputs: a run whose listing carries an
extra unparsable file loads the same results, so `main` behaves
identically on both listings. -/
theorem c6_witness :
    ((mainRun "r" true [⟨"w1", some ⟨some "NATS", some "w1", []⟩⟩]).outputs
        = (if load_results [⟨"w1", some ⟨some "NATS", some "w1", []⟩⟩] = [] then []
           else pipelineOutputs ("r" ++ "/charts")
                  (group_by_workload (load_results [⟨"w1", some ⟨some "NATS", some "w1", []⟩⟩]))))
      ∧ load_results [⟨"w1", some ⟨some "NATS", some "w1", []⟩⟩]
          = load_results [⟨"w1", some ⟨some "NATS", some "w1", []⟩⟩, ⟨"bad", none⟩]
      ∧ mainRun "r" true [⟨"w1", some ⟨some "NATS", some "w1", []⟩⟩]
          = mainRun "r" true [⟨"w1", some ⟨some "NATS", some "w1", []⟩⟩, ⟨"bad", none⟩]
      ∧ (mainRun "r" true [⟨"w1", some ⟨some "NATS", some "w1", []⟩⟩]).outputs
          = (mainRun "r" true [⟨"w1", some ⟨some "NATS", some "w1", []⟩⟩, ⟨"bad", none⟩]).outputs := by
  refine ⟨(c6_single_pass_pipeline "r" [⟨"w1", some ⟨some "NATS", some "w1", []⟩⟩]).1,
    by decide, ?_, ?_⟩
  · exact (c6_single_pass_pipeline "r" [⟨"w1", some ⟨some "NATS", some "w1", []⟩⟩]).2.1
      [⟨"w1", some ⟨some "NATS", some "w1", []⟩⟩, ⟨"bad", none⟩] (by decide)
  · exact (c6_single_pass_pipeline "r" [⟨"w1", some ⟨some "NATS", some "w1", []⟩⟩]).2.2
      [⟨"w1", some ⟨some "NATS", some "w1", []⟩⟩, ⟨"bad", none⟩] (by decide)
